import Mathlib

/-!
Verification of the training-loop orchestration logic of
`pytorch-deeplabv3-alphapilot` (`train.py`), shallowly embedded in Lean.

Tensors, the network, the augmentation library and the logging sink are
external collaborators; we model the control flow, counters and index
arithmetic of the script exactly as written.
-/

namespace AlphaPilotTrain

/-! ## Script constants (train.py lines 52-73) -/

/-- Number of epochs for training (train.py line 52). -/
def nEpochs : ℕ := 100

/-- Testing batch size constant (train.py line 58). -/
def testBatchSize : ℕ := 1

/-- Gradient accumulation window `p[nAveGrad]` (train.py line 63). -/
def nAveGrad : ℕ := 1

/-- Epochs between learning-rate recomputations `p[epoch_size]` (train.py line 67). -/
def epoch_size : ℕ := 1

/-! ## Gradient accumulation (train.py lines 303-313)

Per processed batch the script runs `loss.backward(); aveGrad += 1` and,
when `aveGrad % nAveGrad == 0`, runs `optimizer.step(); optimizer.zero_grad();
aveGrad = 0`.  We track the `aveGrad` counter, the number of backward passes
accumulated in the parameter gradient buffers since the last `zero_grad`
(`gradBuf`), and the number of optimizer steps taken (`steps`). -/

/-- Accumulation state carried across batches of the training loop. -/
structure GradState where
  aveGrad : ℕ
  gradBuf : ℕ
  steps : ℕ
deriving DecidableEq

/-- One iteration of the batch body of the training loop
(train.py lines 303-313), for accumulation window `W`. -/
def trainBatchStep (W : ℕ) (s : GradState) : GradState :=
  let s1 : GradState := { aveGrad := s.aveGrad + 1, gradBuf := s.gradBuf + 1, steps := s.steps }
  if s1.aveGrad % W = 0 then
    { aveGrad := 0, gradBuf := 0, steps := s1.steps + 1 }
  else
    s1

/-- State after `n` processed batches, starting from the script's
initialisation `aveGrad = 0` with empty gradient buffers (train.py line 256). -/
def trainRun (W : ℕ) : ℕ → GradState
  | 0 => { aveGrad := 0, gradBuf := 0, steps := 0 }
  | n + 1 => trainBatchStep W (trainRun W n)

/-- Successor formulas for `%` and `/` by a positive modulus, phrased around
the wrap-around condition used by the accumulation counter. -/
lemma mod_div_succ (W n : ℕ) (hW : 0 < W) :
    ((n + 1) % W = if n % W + 1 = W then 0 else n % W + 1) ∧
    ((n + 1) / W = if n % W + 1 = W then n / W + 1 else n / W) := by
  have hd := Nat.div_add_mod n W
  have hm : n % W < W := Nat.mod_lt n hW
  by_cases h : n % W + 1 = W
  · have hiter : n + 1 = W * (n / W + 1) := by rw [Nat.mul_succ]; omega
    rw [if_pos h, if_pos h]
    constructor
    · rw [hiter]; exact Nat.mul_mod_right W _
    · rw [hiter]; exact Nat.mul_div_cancel_left _ hW
  · have hlt : n % W + 1 < W := by omega
    have hiter : n + 1 = (n % W + 1) + W * (n / W) := by omega
    rw [if_neg h, if_neg h]
    constructor
    · rw [hiter, Nat.add_mul_mod_self_left]
      exact Nat.mod_eq_of_lt hlt
    · rw [hiter, Nat.add_mul_div_left _ _ hW, Nat.div_eq_of_lt hlt, Nat.zero_add]

/-- Closed form of the accumulation state after `n` batches. -/
lemma trainRun_eq (W : ℕ) (hW : 0 < W) (n : ℕ) :
    trainRun W n = { aveGrad := n % W, gradBuf := n % W, steps := n / W } := by
  induction n with
  | zero => simp [trainRun]
  | succ n ih =>
    have hmd := mod_div_succ W n hW
    rw [trainRun, ih]
    show (if (n % W + 1) % W = 0 then
            ({ aveGrad := 0, gradBuf := 0, steps := n / W + 1 } : GradState)
          else { aveGrad := n % W + 1, gradBuf := n % W + 1, steps := n / W }) = _
    by_cases h : n % W + 1 = W
    · have hc : (n % W + 1) % W = 0 := by rw [h]; exact Nat.mod_self W
      rw [if_pos hc, hmd.1, hmd.2, if_pos h, if_pos h]
    · have hlt : n % W + 1 < W := by
        have := Nat.mod_lt n hW
        omega
      have hc : (n % W + 1) % W ≠ 0 := by
        rw [Nat.mod_eq_of_lt hlt]; omega
      rw [if_neg hc, hmd.1, hmd.2, if_neg h, if_neg h]

/-- Claim C1: for every accumulation window `W ≥ 1`, after `n` processed
batches the counter `aveGrad` and the gradient buffer both hold `n % W` and
exactly `n / W` optimizer steps have been applied (one step every `W`
batches); a step at batch `n+1` happens exactly when `(n+1) % W = 0`,
immediately after such a step both `aveGrad` and the gradient buffers are
zero, and no parameter update happens before the counter reaches `W`. -/
theorem C1_gradAccum (W n : ℕ) (hW : 1 ≤ W) :
    trainRun W n = { aveGrad := n % W, gradBuf := n % W, steps := n / W } ∧
    (trainRun W (n + 1)).steps =
      (trainRun W n).steps + (if (n + 1) % W = 0 then 1 else 0) ∧
    ((n + 1) % W = 0 →
      (trainRun W (n + 1)).aveGrad = 0 ∧ (trainRun W (n + 1)).gradBuf = 0) ∧
    (n < W → (trainRun W n).steps = 0) := by
  have hW0 : 0 < W := hW
  refine ⟨trainRun_eq W hW0 n, ?_, ?_, ?_⟩
  · rw [trainRun_eq W hW0 n, trainRun_eq W hW0 (n + 1)]
    simp only
    rw [Nat.succ_div]
    exact congrArg (n / W + ·)
      (if_congr Nat.dvd_iff_mod_eq_zero rfl rfl)
  · intro h
    rw [trainRun_eq W hW0 (n + 1)]
    exact ⟨h, h⟩
  · intro h
    rw [trainRun_eq W hW0 n]
    simp only
    exact Nat.div_eq_of_lt h

/-- Concrete instance of C1 at window 3 after 5 batches. -/
theorem C1_gradAccum_witness :
    trainRun 3 5 = { aveGrad := 5 % 3, gradBuf := 5 % 3, steps := 5 / 3 } ∧
    (trainRun 3 (5 + 1)).steps =
      (trainRun 3 5).steps + (if (5 + 1) % 3 = 0 then 1 else 0) ∧
    ((5 + 1) % 3 = 0 →
      (trainRun 3 (5 + 1)).aveGrad = 0 ∧ (trainRun 3 (5 + 1)).gradBuf = 0) ∧
    (5 < 3 → (trainRun 3 5).steps = 0) :=
  C1_gradAccum 3 5 (by decide)

/-! ## Polynomial learning-rate policy (train.py lines 265-271)

For the deeplab family, at the start of each epoch the script checks
`epoch % p[epoch_size] == p[epoch_size] - 1` and, when it holds, builds a
brand-new `optim.SGD` (all momentum buffers start at zero) with rate
`utils.lr_poly(p[lr], epoch, nEpochs, 0.9)`; otherwise the existing
optimizer object is kept unchanged. -/

/-- Modelled from the spec: `utils.lr_poly` lives in `dataloaders/utils.py`,
which is not part of the sources here; the spec states the computed rate as
base_rate x (1 - epoch/total_epochs)^0.9. -/
noncomputable def lr_poly (base : ℝ) (it maxIter : ℕ) (power : ℝ) : ℝ :=
  base * (1 - (it : ℝ) / (maxIter : ℝ)) ^ power

/-- An SGD optimizer as seen by the loop: its learning rate, and the epoch at
which this instance was freshly constructed (`none` for the pre-loop instance
of train.py line 133); a fresh construction discards all momentum state. -/
structure SGDOpt where
  lr : ℝ
  constructedAt : Option ℕ

/-- Per-epoch optimizer update for the deeplab family
(train.py lines 265-271). -/
noncomputable def deeplabEpochOptimizer (epochSize totalEpochs : ℕ) (baseLr : ℝ)
    (epoch : ℕ) (cur : SGDOpt) : SGDOpt :=
  if epoch % epochSize = epochSize - 1 then
    { lr := lr_poly baseLr epoch totalEpochs (0.9 : ℝ), constructedAt := some epoch }
  else
    cur

/-- Claim C2: under the polynomial-decay policy, at every epoch `e` with
`e % epoch_size = epoch_size - 1` a new SGD optimizer (fresh momentum) is
constructed with learning rate base_rate * (1 - e/nEpochs)^0.9, and at every
other epoch the existing optimizer is kept unchanged. -/
theorem C2_polyDecay (epochSize totalEpochs e e2 : ℕ) (baseLr : ℝ)
    (cur cur2 : SGDOpt)
    (h : e % epochSize = epochSize - 1) (h2 : e2 % epochSize ≠ epochSize - 1) :
    deeplabEpochOptimizer epochSize totalEpochs baseLr e cur =
      { lr := baseLr * (1 - (e : ℝ) / (totalEpochs : ℝ)) ^ (0.9 : ℝ),
        constructedAt := some e } ∧
    deeplabEpochOptimizer epochSize totalEpochs baseLr e2 cur2 = cur2 := by
  constructor
  · rw [deeplabEpochOptimizer, if_pos h, lr_poly]
  · rw [deeplabEpochOptimizer, if_neg h2]

/-- Concrete instance of C2 with epoch size 2: epoch 1 rebuilds the
optimizer with the poly rate, epoch 0 keeps the current instance. -/
theorem C2_polyDecay_witness :
    deeplabEpochOptimizer 2 100 1 1 { lr := 0, constructedAt := none } =
      { lr := (1 : ℝ) * (1 - ((1 : ℕ) : ℝ) / ((100 : ℕ) : ℝ)) ^ (0.9 : ℝ),
        constructedAt := some 1 } ∧
    deeplabEpochOptimizer 2 100 1 0 { lr := 0, constructedAt := none } =
      { lr := 0, constructedAt := none } :=
  C2_polyDecay 2 100 1 0 1 { lr := 0, constructedAt := none }
    { lr := 0, constructedAt := none } (by decide) (by decide)

/-! ## Evaluation pass reporting (train.py lines 342-438)

Each evaluation pass (validation: lines 373-404, test: lines 407-438)
iterates its loader, adds the batch IoU returned by `utils.get_iou` into
`total_iou`, and at indices `ii` with `ii % num_img = num_img - 1` reports
`miou = total_iou / (ii * p[trainBatchSize] + inputs.shape[0])`
(lines 380-381 and 415-417).  We model a batch by its IoU contribution and
its number of images. -/

/-- Data of one evaluation batch: the summed IoU `utils.get_iou` returns for
it, and its image count `inputs.shape[0]`. -/
structure EvalBatch where
  iou : ℚ
  size : ℕ
deriving DecidableEq

/-- Sum of the per-batch IoU contributions of a pass. -/
def sumIou (bs : List EvalBatch) : ℚ :=
  (bs.map EvalBatch.iou).sum

/-- Image count of the final batch of a pass (0 for an empty pass). -/
def lastSize (bs : List EvalBatch) : ℕ :=
  (bs.getLastD { iou := 0, size := 0 }).size

/-- Inner loop of one evaluation pass: running batch index `ii`, accumulated
`total_iou`, and the list of `miou` values reported at indices satisfying
`ii % numImg = numImg - 1` (train.py lines 356-425). -/
def evalPassAux (B numImg : ℕ) : ℕ → ℚ → List EvalBatch → List ℚ
  | _, _, [] => []
  | ii, total, b :: rest =>
      let total2 := total + b.iou
      let reports := evalPassAux B numImg (ii + 1) total2 rest
      if ii % numImg = numImg - 1 then
        (total2 / ((ii * B + b.size : ℕ) : ℚ)) :: reports
      else
        reports

/-- All `miou` values reported during one evaluation pass over `batches`,
with `numImg` the loader length as precomputed on train.py lines 251-252. -/
def evalPass (B : ℕ) (batches : List EvalBatch) : List ℚ :=
  evalPassAux B batches.length 0 0 batches

/-- Within a pass whose batch indices `ii` run from `ii0` to `numImg - 1`,
exactly one report is emitted, at the final batch, and it divides the
accumulated IoU by `ii * B + size` of that batch. -/
lemma evalPassAux_eq (B numImg : ℕ) (bs : List EvalBatch) :
    ∀ (ii : ℕ) (total : ℚ), bs ≠ [] → ii + bs.length = numImg →
    evalPassAux B numImg ii total bs =
      [(total + sumIou bs) / (((numImg - 1) * B + lastSize bs : ℕ) : ℚ)] := by
  induction bs with
  | nil => intro ii total hne _; exact absurd rfl hne
  | cons b rest ih =>
    intro ii total _ hlen
    cases rest with
    | nil =>
      have hii : ii + 1 = numImg := by simpa using hlen
      have hmod : ii % numImg = numImg - 1 := by
        rw [Nat.mod_eq_of_lt (by omega)]
        omega
      rw [evalPassAux, if_pos hmod]
      simp only [evalPassAux]
      rw [sumIou, lastSize]
      simp only [List.map_cons, List.map_nil, List.sum_cons, List.sum_nil,
        List.getLastD_cons, List.getLastD_nil]
      rw [add_zero]
      have : numImg - 1 = ii := by omega
      rw [this]
    | cons b2 rest2 =>
      have hlen2 : (ii + 1) + (b2 :: rest2).length = numImg := by
        simp only [List.length_cons] at hlen ⊢
        omega
      have hmod : ii % numImg ≠ numImg - 1 := by
        rw [Nat.mod_eq_of_lt (by simp only [List.length_cons] at hlen; omega)]
        simp only [List.length_cons] at hlen
        omega
      rw [evalPassAux, if_neg hmod]
      rw [ih (ii + 1) (total + b.iou) (List.cons_ne_nil b2 rest2) hlen2]
      rw [sumIou, sumIou, lastSize, lastSize]
      simp only [List.map_cons, List.sum_cons, List.getLastD_cons]
      rw [add_assoc]

/-- Claim C3: in the evaluation loop, at the reporting boundary
(`ii % num_img = num_img - 1`, reached exactly at the final batch of the
pass) the reported mean IoU equals the accumulated `total_iou` divided by
`ii * trainBatchSize + inputs.shape[0]` of the current batch, for both the
validation pass and the test pass. -/
theorem C3_evalMiou (B : ℕ) (valBatches testBatches : List EvalBatch)
    (hv : valBatches ≠ []) (ht : testBatches ≠ []) :
    evalPass B valBatches =
      [sumIou valBatches /
        (((valBatches.length - 1) * B + lastSize valBatches : ℕ) : ℚ)] ∧
    evalPass B testBatches =
      [sumIou testBatches /
        (((testBatches.length - 1) * B + lastSize testBatches : ℕ) : ℚ)] := by
  constructor
  · rw [evalPass, evalPassAux_eq B valBatches.length valBatches 0 0 hv (by omega),
      zero_add]
  · rw [evalPass, evalPassAux_eq B testBatches.length testBatches 0 0 ht (by omega),
      zero_add]

/-- Concrete instance of C3: a two-batch validation pass and a one-batch
test pass with training batch size 2. -/
theorem C3_evalMiou_witness :
    evalPass 2 [{ iou := 1, size := 2 }, { iou := 1/2, size := 2 }] =
      [sumIou [{ iou := 1, size := 2 }, { iou := 1/2, size := 2 }] /
        ((([({ iou := 1, size := 2 } : EvalBatch), { iou := 1/2, size := 2 }].length - 1) * 2 +
          lastSize [{ iou := 1, size := 2 }, { iou := 1/2, size := 2 }] : ℕ) : ℚ)] ∧
    evalPass 2 [{ iou := 1, size := 2 }] =
      [sumIou [{ iou := 1, size := 2 }] /
        ((([({ iou := 1, size := 2 } : EvalBatch)].length - 1) * 2 +
          lastSize [{ iou := 1, size := 2 }] : ℕ) : ℚ)] :=
  C3_evalMiou 2 [{ iou := 1, size := 2 }, { iou := 1/2, size := 2 }]
    [{ iou := 1, size := 2 }] (by decide) (by decide)

/-! ## Training visualization cadence (train.py lines 315-333)

The script sets `plot_per_iter = num_img_tr if num_img_tr < 10 else 10` and
emits a visualization grid at every batch index `ii` with
`ii % (num_img_tr // plot_per_iter) == 0`. -/

/-- Number of plots aimed for per epoch (train.py lines 316-319). -/
def plot_per_iter (num_img_tr : ℕ) : ℕ :=
  if num_img_tr < 10 then num_img_tr else 10

/-- Index stride between emissions, `num_img_tr // plot_per_iter`
(train.py line 320). -/
def plotDivisor (num_img_tr : ℕ) : ℕ :=
  num_img_tr / plot_per_iter num_img_tr

/-- Whether the grid is emitted at batch index `ii` (train.py line 320). -/
def plotEmitted (num_img_tr ii : ℕ) : Bool :=
  ii % plotDivisor num_img_tr == 0

/-- Number of emissions over one epoch of `num_img_tr` batches. -/
def emitCount (num_img_tr : ℕ) : ℕ :=
  List.countP (fun ii => ii % plotDivisor num_img_tr == 0) (List.range num_img_tr)

/-- Counting the multiples of `d` among `0, ..., m`. -/
lemma countP_mod_range (d : ℕ) : ∀ m : ℕ,
    List.countP (fun ii => ii % d == 0) (List.range (m + 1)) = m / d + 1 := by
  intro m
  induction m with
  | zero =>
    rw [List.range_succ, List.range_zero]
    simp [List.countP_append, List.countP_cons, List.countP_nil]
  | succ m ih =>
    rw [List.range_succ, List.countP_append, ih]
    have hsingle : List.countP (fun ii => ii % d == 0) [m + 1] =
        if d ∣ m + 1 then 1 else 0 := by
      rw [List.countP_cons, List.countP_nil]
      by_cases h : (m + 1) % d = 0
      · simp [h, Nat.dvd_iff_mod_eq_zero]
      · simp [h, Nat.dvd_iff_mod_eq_zero]
    rw [hsingle, Nat.succ_div]
    ring

/-- Counterexample to claim C4: with a pass length of 11 batches the stride
is `11 / 10 = 1`, so the grid is emitted at every one of the 11 batch
indices: 11 times in the epoch, which exceeds 10. -/
theorem C4_counterexample :
    emitCount 11 = 11 ∧ ¬ emitCount 11 ≤ 10 := by
  constructor <;> decide

/-- Claim C4 (amended): for every epoch over `n ≥ 1` batches, the grid is
emitted exactly at batch indices divisible by `n / min n 10`, and the number
of emissions per epoch is `(n - 1) / (n / min n 10) + 1`, which is at most 19
(not at most 10; the bound 19 is attained at `n = 19`). -/
theorem C4_plotCadence (n ii : ℕ) (hn : 1 ≤ n) :
    plotDivisor n = n / min n 10 ∧
    (plotEmitted n ii = true ↔ n / min n 10 ∣ ii) ∧
    emitCount n = (n - 1) / (n / min n 10) + 1 ∧
    emitCount n ≤ 19 := by
  have hpp : plot_per_iter n = min n 10 := by
    rw [plot_per_iter, Nat.min_def]
    split_ifs <;> omega
  have hdiv : plotDivisor n = n / min n 10 := by
    rw [plotDivisor, hpp]
  have hcount : emitCount n = (n - 1) / (n / min n 10) + 1 := by
    rw [emitCount, hdiv]
    obtain ⟨m, rfl⟩ : ∃ m, n = m + 1 := ⟨n - 1, by omega⟩
    rw [countP_mod_range, Nat.add_sub_cancel]
  refine ⟨hdiv, ?_, hcount, ?_⟩
  · rw [plotEmitted, hdiv, beq_iff_eq]
    exact (Nat.dvd_iff_mod_eq_zero).symm
  · rw [hcount]
    rcases le_or_lt n 19 with h19 | h19
    · calc (n - 1) / (n / min n 10) + 1 ≤ (n - 1) + 1 := by
            exact Nat.add_le_add_right (Nat.div_le_self _ _) 1
        _ ≤ 19 := by omega
    · have hmin : min n 10 = 10 := by omega
      rw [hmin]
      have hd : 0 < n / 10 := Nat.div_pos (by omega) (by omega)
      have hlt : (n - 1) / (n / 10) < 19 := by
        rw [Nat.div_lt_iff_lt_mul hd]
        omega
      omega

/-- Concrete instance of the amended C4 at pass length 19 (where the bound
19 is attained) and batch index 4. -/
theorem C4_plotCadence_witness :
    plotDivisor 19 = 19 / min 19 10 ∧
    (plotEmitted 19 4 = true ↔ 19 / min 19 10 ∣ 4) ∧
    emitCount 19 = (19 - 1) / (19 / min 19 10) + 1 ∧
    emitCount 19 ≤ 19 :=
  C4_plotCadence 19 4 (by decide)

/-! ## Training dataset assembly (train.py lines 221-229)

For each configured training dataset the script builds a data source,
computes `train_size = int(config.train.percentageDataForTraining * len(db))`
and keeps `Subset(db, range(train_size))` — the leading prefix; the final
training set is the concatenation of these prefixes.  A data source is
modelled as the list of its samples. -/

/-- Number of samples kept from a source of length `L` under training
fraction `f` (train.py line 225).  Python's `int()` truncates toward zero,
which is the floor for the non-negative values arising here. -/
def train_size (f : ℚ) (L : ℕ) : ℕ :=
  (Int.floor (f * (L : ℚ))).toNat

/-- Truncation of one data source to its training prefix,
`Subset(db, range(train_size))` (train.py line 226). -/
def truncate (f : ℚ) (db : List α) : List α :=
  db.take (train_size f db.length)

/-- The assembled training set: concatenation of the truncated sources
(train.py lines 221-229). -/
def db_train (f : ℚ) (sources : List (List α)) : List α :=
  (sources.map (truncate f)).flatten

/-- For a fraction of at most one, the truncated prefix of a source has
exactly `train_size` samples. -/
lemma truncate_length (f : ℚ) (h1 : f ≤ 1) (db : List α) :
    (truncate f db).length = train_size f db.length := by
  rw [truncate, List.length_take]
  refine Nat.min_eq_left ?_
  rw [train_size, Int.toNat_le]
  calc Int.floor (f * (db.length : ℚ)) ≤ Int.floor ((db.length : ℚ)) := by
        refine Int.floor_le_floor ?_
        calc f * (db.length : ℚ) ≤ 1 * (db.length : ℚ) :=
              mul_le_mul_of_nonneg_right h1 (Nat.cast_nonneg _)
          _ = (db.length : ℚ) := one_mul _
    _ = (db.length : ℤ) := Int.floor_natCast _

/-- Claim C5: for every training source of length `L` and fraction
`0 ≤ f ≤ 1`, the assembled subset has exactly `floor(f * L)` samples and is
the leading prefix of the source in original order, and the final training
set concatenates these prefixes over all sources (its length is the sum of
the per-source `train_size` values). -/
theorem C5_truncation (f : ℚ) (h0 : 0 ≤ f) (h1 : f ≤ 1)
    (src : List α) (sources : List (List α)) :
    ((truncate f src).length : ℤ) = Int.floor (f * (src.length : ℚ)) ∧
    truncate f src ++ src.drop (train_size f src.length) = src ∧
    (db_train f sources).length =
      (sources.map (fun s => train_size f s.length)).sum := by
  refine ⟨?_, ?_, ?_⟩
  · rw [truncate_length f h1 src, train_size]
    exact Int.toNat_of_nonneg
      (Int.floor_nonneg.mpr (mul_nonneg h0 (Nat.cast_nonneg _)))
  · exact List.take_append_drop _ src
  · induction sources with
    | nil => rfl
    | cons s ss ih =>
      rw [db_train, List.map_cons, List.flatten_cons, List.length_append]
      rw [db_train] at ih
      rw [ih, List.map_cons, List.sum_cons, truncate_length f h1 s]

/-- Concrete instance of C5: fraction 1/2 over a single 10-sample source
keeps exactly the first 5 samples. -/
theorem C5_truncation_witness :
    ((truncate (1/2 : ℚ) (List.range 10)).length : ℤ) =
      Int.floor ((1/2 : ℚ) * ((List.range 10).length : ℚ)) ∧
    truncate (1/2 : ℚ) (List.range 10) ++
      (List.range 10).drop (train_size (1/2) (List.range 10).length) =
      List.range 10 ∧
    (db_train (1/2 : ℚ) [List.range 10]).length =
      ([List.range 10].map (fun s => train_size (1/2) s.length)).sum :=
  C5_truncation (1/2) (by norm_num) (by norm_num) (List.range 10) [List.range 10]

/-! ## Evaluation dataset assembly and loaders (train.py lines 185-246)

`augs_train` resizes with interpolation 0 (nearest neighbour), `augs_test`
with cubic interpolation.  The validation sources are built in a loop that
reassigns `db_validation` for every entry of `config.eval.datasetsSynthetic`,
so only the last entry survives; the test loop appends every source to
`db_test_list` but the loader is built from the loop variable `db_test`,
which also holds only the last entry.  All three `DataLoader`s are created
with `batch_size=p[trainBatchSize]` and `drop_last=True`. -/

/-- Resize interpolation mode of an augmentation pipeline. -/
inductive Interp where
  | nearest
  | cubic
deriving DecidableEq

/-- An imgaug pipeline, abstracted to its resize interpolation. -/
structure AugPipeline where
  interp : Interp
deriving DecidableEq

/-- Training augmentation pipeline, `iaa.Resize((imsize, imsize), 0)`
(train.py lines 185-209). -/
def augs_train : AugPipeline := { interp := Interp.nearest }

/-- Test augmentation pipeline, cubic resize (train.py lines 211-214). -/
def augs_test : AugPipeline := { interp := Interp.cubic }

/-- One configured dataset entry, given by the samples its directories
contain. -/
structure DatasetCfg (α : Type) where
  samples : List α
deriving DecidableEq

/-- A constructed `AlphaPilotSegmentation` data source: its samples and the
augmentation pipeline it was built with. -/
structure DataSource (α : Type) where
  samples : List α
  transform : AugPipeline
deriving DecidableEq

/-- Validation source construction (train.py lines 231-236): the loop
reassigns `db_validation` once per configured synthetic entry, always with
`transform=augs_train`; `none` models the variable never being assigned. -/
def db_validation (syn : List (DatasetCfg α)) : Option (DataSource α) :=
  syn.foldl (fun _ d => some { samples := d.samples, transform := augs_train }) none

/-- Test source construction (train.py lines 237-240): the loop reassigns
`db_test` once per configured real entry, with `transform=augs_test`. -/
def db_test (real : List (DatasetCfg α)) : Option (DataSource α) :=
  real.foldl (fun _ d => some { samples := d.samples, transform := augs_test }) none

/-- The list `db_test_list` accumulated on train.py line 240; it is never
read after the loop. -/
def db_test_list (real : List (DatasetCfg α)) : List (DataSource α) :=
  real.map (fun d => { samples := d.samples, transform := augs_test })

/-- A fold that overwrites its accumulator at every element ends at the
image of the last element. -/
lemma foldl_some_last (f : β → γ) (xs : List β) :
    ∀ (h : xs ≠ []) (init : Option γ),
      xs.foldl (fun _ x => some (f x)) init = some (f (xs.getLast h)) := by
  induction xs with
  | nil => intro h; exact absurd rfl h
  | cons x xs ih =>
    intro h init
    cases xs with
    | nil => rfl
    | cons y ys =>
      have h2 : y :: ys ≠ [] := List.cons_ne_nil y ys
      rw [List.foldl_cons, ih h2 (some (f x))]
      rw [List.getLast_cons h2]

/-- Batches produced by a `DataLoader` with `drop_last=True`: consecutive
chunks of `B` samples, discarding the trailing partial chunk. -/
def dropLastBatches (B : ℕ) (xs : List α) : List (List α) :=
  if _h : 0 < B ∧ B ≤ xs.length then
    xs.take B :: dropLastBatches B (xs.drop B)
  else
    []
termination_by xs.length
decreasing_by
  simp only [List.length_drop]
  omega

/-- Samples the validation loader draws from, line 245 feeding
`db_validation` into the `DataLoader`. -/
def db_validationSamples (syn : List (DatasetCfg α)) : List α :=
  ((db_validation syn).map DataSource.samples).getD []

/-- Samples the test loader draws from, line 246 feeding `db_test` into the
`DataLoader` (`db_test_list` is ignored). -/
def db_testSamples (real : List (DatasetCfg α)) : List α :=
  ((db_test real).map DataSource.samples).getD []

/-- Training loader batches (train.py line 244); the loader shuffles, so it
is applied to an arbitrary permutation of `db_train`. -/
def trainloader (B : ℕ) (shuffled : List α) : List (List α) :=
  dropLastBatches B shuffled

/-- Validation loader batches (train.py line 245): batch size
`p[trainBatchSize]`, no shuffling, `drop_last=True`. -/
def validationloader (B : ℕ) (syn : List (DatasetCfg α)) : List (List α) :=
  dropLastBatches B (db_validationSamples syn)

/-- Test loader batches (train.py line 246): batch size `p[trainBatchSize]`,
no shuffling, `drop_last=True`. -/
def testloader (B : ℕ) (real : List (DatasetCfg α)) : List (List α) :=
  dropLastBatches B (db_testSamples real)

/-- Drop-last batching yields exactly `length / B` batches. -/
lemma length_dropLastBatches (B : ℕ) (hB : 0 < B) :
    ∀ (n : ℕ) (xs : List α), xs.length ≤ n →
      (dropLastBatches B xs).length = xs.length / B := by
  intro n
  induction n with
  | zero =>
    intro xs hx
    rw [dropLastBatches]
    rw [dif_neg (by omega)]
    have hx0 : xs.length = 0 := by omega
    rw [hx0, Nat.zero_div, List.length_nil]
  | succ n ih =>
    intro xs hx
    rw [dropLastBatches]
    by_cases h : 0 < B ∧ B ≤ xs.length
    · rw [dif_pos h, List.length_cons]
      rw [ih (xs.drop B) (by rw [List.length_drop]; omega)]
      rw [List.length_drop]
      have hsplit : xs.length = (xs.length - B) + B := by omega
      rw [hsplit, Nat.add_sub_cancel, Nat.add_div_right _ hB]
    · rw [dif_neg h, List.length_nil]
      have hlt : xs.length < B := by omega
      rw [Nat.div_eq_of_lt hlt]

/-- Claim C6: with several synthetic evaluation entries configured, only the
last entry's samples reach the validation loader, and with several real
entries only the last entry's samples reach the test loader (last-write-wins
for both splits). -/
theorem C6_lastWriteWins (syn real : List (DatasetCfg α))
    (hs : syn ≠ []) (hr : real ≠ []) (B : ℕ) :
    db_validation syn =
      some { samples := (syn.getLast hs).samples, transform := augs_train } ∧
    db_test real =
      some { samples := (real.getLast hr).samples, transform := augs_test } ∧
    validationloader B syn = dropLastBatches B (syn.getLast hs).samples ∧
    testloader B real = dropLastBatches B (real.getLast hr).samples := by
  have hv := foldl_some_last
    (fun d : DatasetCfg α => ({ samples := d.samples, transform := augs_train } : DataSource α))
    syn hs none
  have ht := foldl_some_last
    (fun d : DatasetCfg α => ({ samples := d.samples, transform := augs_test } : DataSource α))
    real hr none
  refine ⟨hv, ht, ?_, ?_⟩
  · rw [validationloader, db_validationSamples, db_validation, hv]
    rfl
  · rw [testloader, db_testSamples, db_test, ht]
    rfl

/-- Concrete instance of C6: two synthetic entries and two real entries;
only the second of each reaches its loader. -/
theorem C6_lastWriteWins_witness :
    db_validation [{ samples := [10] }, { samples := [20, 30] }] =
      some { samples := [20, 30], transform := augs_train } ∧
    db_test [{ samples := [1] }, { samples := [2] }] =
      some { samples := [2], transform := augs_test } ∧
    validationloader 1 [{ samples := [10] }, { samples := [20, 30] }] =
      dropLastBatches 1 [20, 30] ∧
    testloader 1 [{ samples := ([1] : List ℕ) }, { samples := [2] }] =
      dropLastBatches 1 [2] :=
  C6_lastWriteWins [{ samples := [10] }, { samples := [20, 30] }]
    [{ samples := [1] }, { samples := [2] }] (by decide) (by decide) 1

/-- Claim C7: all three loaders are built with `drop_last=True`, so a pass
over `n` samples with batch size `B` yields exactly `n / B` batches — for
the training loader over any shuffle of the training set, and for the
validation and test loaders over their sources. -/
theorem C7_dropLast (B : ℕ) (hB : 0 < B) (trainDb shuffled : List α)
    (hperm : shuffled.Perm trainDb)
    (syn real : List (DatasetCfg α)) :
    (trainloader B shuffled).length = trainDb.length / B ∧
    (validationloader B syn).length = (db_validationSamples syn).length / B ∧
    (testloader B real).length = (db_testSamples real).length / B := by
  refine ⟨?_, ?_, ?_⟩
  · rw [trainloader, length_dropLastBatches B hB shuffled.length shuffled le_rfl,
      hperm.length_eq]
  · exact length_dropLastBatches B hB _ _ le_rfl
  · exact length_dropLastBatches B hB _ _ le_rfl

/-- Concrete instance of C7 matching the spec scenario: batch size 2, one
training dataset of 10 samples, fraction 1/2; the training subset has 5
samples and the loader yields exactly 2 batches. -/
theorem C7_dropLast_witness :
    (trainloader 2 (db_train (1/2 : ℚ) [List.range 10])).length =
      (db_train (1/2 : ℚ) [List.range 10]).length / 2 ∧
    (validationloader 2 ([{ samples := [0, 1] }] : List (DatasetCfg ℕ))).length =
      (db_validationSamples ([{ samples := [0, 1] }] : List (DatasetCfg ℕ))).length / 2 ∧
    (testloader 2 ([{ samples := [0] }] : List (DatasetCfg ℕ))).length =
      (db_testSamples ([{ samples := [0] }] : List (DatasetCfg ℕ))).length / 2 ∧
    (db_train (1/2 : ℚ) [List.range 10]).length = 5 ∧
    (trainloader 2 (db_train (1/2 : ℚ) [List.range 10])).length = 2 := by
  have h := C7_dropLast 2 (by decide) (db_train (1/2 : ℚ) [List.range 10])
    (db_train (1/2 : ℚ) [List.range 10]) (List.Perm.refl _)
    ([{ samples := [0, 1] }] : List (DatasetCfg ℕ))
    ([{ samples := [0] }] : List (DatasetCfg ℕ))
  have h5 : train_size (1/2 : ℚ) 10 = 5 := by
    rw [train_size]
    norm_num
    decide
  have hdb : db_train (1/2 : ℚ) [List.range 10] = List.take 5 (List.range 10) := by
    rw [db_train, List.map_cons, List.map_nil, truncate, List.length_range, h5,
      List.flatten_cons, List.flatten_nil, List.append_nil]
  have hlen : (db_train (1/2 : ℚ) [List.range 10]).length = 5 := by
    rw [hdb]
    decide
  refine ⟨h.1, h.2.1, h.2.2, hlen, ?_⟩
  rw [h.1, hlen]

/-! ## Network construction (train.py lines 123-150)

The script builds the network from `p[Model]` and `backbone` before any
dataset is assembled (lines 216-246); an unsupported family or backbone hits
a bare `raise NotImplementedError`. -/

/-- The networks the script can instantiate. -/
inductive Net where
  | deeplabXception
  | deeplabResnet
  | unetNet
deriving DecidableEq

/-- Network selection (train.py lines 123-150). -/
def buildNet (model backboneSel : String) : Except String Net :=
  if model = "deeplab" then
    if backboneSel = "xception" then Except.ok Net.deeplabXception
    else if backboneSel = "resnet" then Except.ok Net.deeplabResnet
    else Except.error "NotImplementedError"
  else if model = "unet" then Except.ok Net.unetNet
  else Except.error "NotImplementedError"

/-- Script order: network construction (lines 123-150) runs first and a
raised error aborts before the training dataset is assembled
(lines 216-246); on success the assembled training set is produced. -/
def scriptSetup (model backboneSel : String) (f : ℚ)
    (trainCfg : List (List α)) : Except String (Net × List α) :=
  match buildNet model backboneSel with
  | Except.error e => Except.error e
  | Except.ok net => Except.ok (net, db_train f trainCfg)

/-- Claim C8: for every model-family selector other than deeplab and unet,
and for the deeplab family every backbone selector other than xception and
resnet, construction fails with the "not implemented" error and the script
aborts before any dataset assembly or data loading is performed. -/
theorem C8_failFast (model backboneSel : String) (f : ℚ)
    (trainCfg : List (List α))
    (h : (model ≠ "deeplab" ∧ model ≠ "unet") ∨
      (model = "deeplab" ∧ backboneSel ≠ "xception" ∧ backboneSel ≠ "resnet")) :
    buildNet model backboneSel = Except.error "NotImplementedError" ∧
    scriptSetup model backboneSel f trainCfg =
      Except.error "NotImplementedError" := by
  have hb : buildNet model backboneSel = Except.error "NotImplementedError" := by
    rcases h with ⟨h1, h2⟩ | ⟨h1, h2, h3⟩
    · rw [buildNet, if_neg h1, if_neg h2]
    · rw [buildNet, if_pos h1, if_neg h2, if_neg h3]
  refine ⟨hb, ?_⟩
  rw [scriptSetup, hb]

/-- Concrete instance of C8: an unsupported model family, with the config
listing one training dataset. -/
theorem C8_failFast_witness :
    buildNet "segnet" "xception" = Except.error "NotImplementedError" ∧
    scriptSetup "segnet" "xception" (1/2 : ℚ) [List.range 4] =
      Except.error "NotImplementedError" :=
  C8_failFast "segnet" "xception" (1/2) [List.range 4]
    (Or.inl ⟨by decide, by decide⟩)

/-! ## Test-pass batch-size mismatch (train.py lines 58, 244-246, 415-421)

`testBatchSize = 1` is declared on line 58 but the test `DataLoader` is
built with `batch_size=p[trainBatchSize]` (line 246).  In the test pass the
mIoU denominator uses `ii * p[trainBatchSize] + inputs.shape[0]` (line 417)
while the printed image count uses `ii * testBatchSize + inputs.shape[0]`
(line 421). -/

/-- Batch sizes the three `DataLoader`s on train.py lines 244-246 are built
with. -/
structure Loaders where
  trainB : ℕ
  valB : ℕ
  testB : ℕ
deriving DecidableEq

/-- Loader construction (train.py lines 244-246): every loader receives
`p[trainBatchSize]`. -/
def scriptLoaders (trainBatchSize : ℕ) : Loaders :=
  { trainB := trainBatchSize, valB := trainBatchSize, testB := trainBatchSize }

/-- Image count used in the test-pass mIoU denominator (train.py line 417). -/
def testMiouDenom (ii B size : ℕ) : ℕ :=
  ii * B + size

/-- Image count printed in the test-pass report (train.py line 421). -/
def testPrintedCount (ii size : ℕ) : ℕ :=
  ii * testBatchSize + size

/-- Counterexample to claim C9: at a reporting boundary with batch index 0
(a test pass of a single batch, e.g. two samples at training batch size 2),
the printed image count agrees with the mIoU-denominator count even though
the training batch size differs from 1. -/
theorem C9_counterexample :
    (2 : ℕ) ≠ 1 ∧ testPrintedCount 0 2 = testMiouDenom 0 2 2 := by
  constructor <;> decide

/-- Claim C9 (amended): the test loader is built with the training batch
size (so it differs from the unused `testBatchSize = 1` whenever that size
is not 1), the mIoU denominator uses the training batch size while the
printed image count uses `testBatchSize`, and whenever the training batch
size differs from 1 *and the reporting batch index is at least 1* the
printed image count disagrees with the denominator count (at batch index 0
the two formulas coincide). -/
theorem C9_batchSizeMismatch (B ii size : ℕ) (hB : B ≠ 1) (hii : 1 ≤ ii) :
    (scriptLoaders B).testB = B ∧
    (scriptLoaders B).testB ≠ testBatchSize ∧
    testBatchSize = 1 ∧
    testMiouDenom ii B size = ii * B + size ∧
    testPrintedCount ii size = ii * 1 + size ∧
    testPrintedCount ii size ≠ testMiouDenom ii B size := by
  refine ⟨rfl, hB, rfl, rfl, rfl, ?_⟩
  rw [testPrintedCount, testMiouDenom, testBatchSize]
  intro hEq
  have hmul : ii * 1 = ii * B := Nat.add_right_cancel hEq
  exact hB (Nat.eq_of_mul_eq_mul_left (by omega) hmul).symm

/-- Concrete instance of the amended C9 at training batch size 2, reporting
batch index 1, current batch of 2 images. -/
theorem C9_batchSizeMismatch_witness :
    (scriptLoaders 2).testB = 2 ∧
    (scriptLoaders 2).testB ≠ testBatchSize ∧
    testBatchSize = 1 ∧
    testMiouDenom 1 2 2 = 1 * 2 + 2 ∧
    testPrintedCount 1 2 = 1 * 1 + 2 ∧
    testPrintedCount 1 2 ≠ testMiouDenom 1 2 2 :=
  C9_batchSizeMismatch 2 1 2 (by decide) (by decide)

/-- Claim C10: the validation data source is constructed with the training
augmentation pipeline (nearest-neighbour resize) rather than the test
pipeline (cubic resize), the validation loader uses the training batch size,
and only the test data sources use the test augmentation pipeline. -/
theorem C10_validationAug (syn real : List (DatasetCfg α)) (hs : syn ≠ [])
    (B : ℕ) :
    (db_validation syn).map DataSource.transform = some augs_train ∧
    augs_train.interp = Interp.nearest ∧
    augs_test.interp = Interp.cubic ∧
    augs_train ≠ augs_test ∧
    (scriptLoaders B).valB = B ∧
    (db_test_list real).map DataSource.transform =
      real.map (fun _ => augs_test) := by
  refine ⟨?_, rfl, rfl, by decide, rfl, ?_⟩
  · rw [db_validation, foldl_some_last
      (fun d : DatasetCfg α =>
        ({ samples := d.samples, transform := augs_train } : DataSource α))
      syn hs none]
    rfl
  · rw [db_test_list, List.map_map]
    rfl

/-- Concrete instance of C10 with two synthetic entries, one real entry and
training batch size 2. -/
theorem C10_validationAug_witness :
    (db_validation [{ samples := ([1] : List ℕ) }, { samples := [2] }]).map
      DataSource.transform = some augs_train ∧
    augs_train.interp = Interp.nearest ∧
    augs_test.interp = Interp.cubic ∧
    augs_train ≠ augs_test ∧
    (scriptLoaders 2).valB = 2 ∧
    (db_test_list [{ samples := ([3] : List ℕ) }]).map DataSource.transform =
      [augs_test] :=
  C10_validationAug [{ samples := [1] }, { samples := [2] }]
    [{ samples := [3] }] (by decide) 2

end AlphaPilotTrain
